import Mathlib

/-!
Verification model of the mrun supervisor (src/main.go).

The development has two parts:

1. A sequential model of the forked child's launch sequence
   (the pid == 0 branches of watch_producer, src/main.go:89-111, and
   watch_consumer, src/main.go:137-158), as a function from the role and
   the outcomes of the underlying system calls to the list of descriptor
   actions performed and the final result (exec reached, or exit).

2. A small-step interleaving model of the supervising Go process itself:
   the main restart loop (src/main.go:194-237), the two watcher goroutines
   (parent branches, src/main.go:77-123 and 125-169), the signal-handler
   goroutine (src/main.go:177-192) and the unbuffered comms channel.
   A send on the unbuffered channel is a single rendezvous step that
   pairs a ready sender with the main goroutine blocked at one of its
   three receive points.  Child processes exit at arbitrary moments
   (environment steps).  Fork and pipe(2) may nondeterministically fail,
   matching the error branches of the code.

   Modelling scope: each loop iteration makes a fresh channel
   (src/main.go:198), so a watcher goroutine left over from a finished
   generation can only block forever on the superseded channel; its
   remaining steps touch no state shared with later generations.  The
   model therefore tracks the tasks and children of the current
   generation only, resetting them when a new pipe is created.
-/

namespace Mrun

/-! ## Part 1: the child launch sequence -/

/-- The two pipeline roles. -/
inductive Role
  | producer
  | consumer
deriving DecidableEq, Repr

/-- Descriptor-level actions the forked child performs before (and
including) its exec attempt, in program order. -/
inductive LAct
  | closeFd (fd : Nat)
  | fcntlGetfl (fd : Nat)
  | fcntlSetflNonblock (fd : Nat)
  | dup2 (oldfd newfd : Nat)
  | execve (path : String) (argv : List String) (env : List String)
deriving DecidableEq, Repr

/-- Outcomes of the system calls the child issues.  A true field means
the corresponding call failed.  The Go code discards the error results
of every descriptor operation (src/main.go:93, 96-97, 100-101 and
141, 144-145, 148-149), so only execErr can influence control flow. -/
structure SysErrs where
  closeUnusedErr : Bool
  fcntlGetErr : Bool
  fcntlSetErr : Bool
  dup2Err : Bool
  closeBoundErr : Bool
  execErr : Bool
deriving DecidableEq, Repr

/-- Result of the child branch: the process image was replaced by a
successful exec, or the child exited with a status code. -/
inductive LResult
  | execed
  | exitedWith (code : Nat)
deriving DecidableEq, Repr

/-- File descriptor of standard input. -/
def stdinFd : Nat := 0

/-- File descriptor of standard output. -/
def stdoutFd : Nat := 1

/-- Go's path/filepath.Base on slash-separated paths: empty input gives
".", trailing slashes are stripped, the part after the last remaining
slash is returned, and an all-slash input gives "/". -/
def goBase (path : String) : String :=
  if path.data = [] then "."
  else
    let cs := (path.data.reverse.dropWhile (fun c => c = '/')).reverse
    let last := (cs.reverse.takeWhile (fun c => c ≠ '/')).reverse
    if last = [] then "/" else String.mk last

/-- The child branch of a watcher fork, translated line by line from
src/main.go.  Producer (lines 89-111): close the read end, fcntl
F_GETFL / F_SETFL O_NONBLOCK on the write end, dup2 the write end onto
stdout, close the write end, exec the producer path with its base name
as the only argv entry and the current environment.  Consumer (lines
137-158) is symmetric with the read end and stdin.  Every descriptor
call's error value is discarded by the source, so the action list does
not depend on the SysErrs fields; only a failed exec is reported, and
then the child exits with status 1 (lines 108-111, 155-158). -/
def launchChild (role : Role) (readfd writefd : Nat) (path : String)
    (env : List String) (r : SysErrs) : List LAct × LResult :=
  let unusedFd := match role with | .producer => readfd | .consumer => writefd
  let boundFd := match role with | .producer => writefd | .consumer => readfd
  let stdFd := match role with | .producer => stdoutFd | .consumer => stdinFd
  let acts := [LAct.closeFd unusedFd,
               LAct.fcntlGetfl boundFd,
               LAct.fcntlSetflNonblock boundFd,
               LAct.dup2 boundFd stdFd,
               LAct.closeFd boundFd,
               LAct.execve path [goBase path] env]
  if r.execErr then (acts, .exitedWith 1) else (acts, .execed)

/-- The launch sequence as the specification words it (section 4.1,
steps 1-5): close the pipe end not used by the role, set the bound end
non-blocking (realized by the fcntl F_GETFL / F_SETFL pair), duplicate
the bound end onto the role's standard stream, close the original
descriptor, exec the target with only its base name as argument zero
and the current environment. -/
def specLaunchSeq (role : Role) (readfd writefd : Nat) (path : String)
    (env : List String) : List LAct :=
  match role with
  | .producer =>
      [LAct.closeFd readfd,
       LAct.fcntlGetfl writefd,
       LAct.fcntlSetflNonblock writefd,
       LAct.dup2 writefd stdoutFd,
       LAct.closeFd writefd,
       LAct.execve path [goBase path] env]
  | .consumer =>
      [LAct.closeFd writefd,
       LAct.fcntlGetfl readfd,
       LAct.fcntlSetflNonblock readfd,
       LAct.dup2 readfd stdinFd,
       LAct.closeFd readfd,
       LAct.execve path [goBase path] env]

/-! ## Part 2: the supervising process -/

/-- Restart policy (src/main.go:14-19), fixed in init (lines 72-74). -/
inductive Policy
  | restart
  | noRestart
deriving DecidableEq, Repr

/-- Program counter of the main goroutine inside the restart loop
(src/main.go:194-237): the shutdown check at the top, pipe creation,
starting the producer watcher, the two pid receives, closing the
supervisor's pipe copies, the exit-notification receive, the two kill
calls, and the policy check. -/
inductive MainPC
  | top
  | pipe
  | spawnProd
  | recv1
  | recv2
  | closeFds
  | recvDone
  | kill1
  | kill2
  | policyCheck
deriving DecidableEq, Repr

/-- Program counter of the producer watcher goroutine's parent branch
(src/main.go:77-123): fork, send the child pid, start the consumer
watcher, wait for the child, send the done sentinel. -/
inductive ProdPC
  | dead
  | fork
  | send
  | spawnCons
  | wait
  | sendDone
deriving DecidableEq, Repr

/-- Program counter of the consumer watcher goroutine's parent branch
(src/main.go:125-169). -/
inductive ConsPC
  | dead
  | fork
  | send
  | wait
  | sendDone
deriving DecidableEq, Repr

/-- Program counter of the signal-handler goroutine (src/main.go:177-192):
it performs a single receive from the signal channel and then returns. -/
inductive ListenPC
  | listening
  | finished
deriving DecidableEq, Repr

/-- Which task takes a step: the main goroutine, a watcher goroutine, a
rendezvous on the unbuffered comms channel, a child process exiting
(environment), or signal handling. -/
inductive Lab
  | sup
  | prodW
  | consW
  | comm
  | child
  | sig
deriving DecidableEq, Repr

/-- State of the supervising process.  pid1 and pid2 are main's local
variables of the same names (src/main.go:216, 219); kills records the
pid arguments passed to syscall.Kill this generation (lines 230-231);
prodChild and consChild are the current generation's forked children as
(pid, still-running); signals counts handled (logged) signals. -/
structure St where
  policy : Policy
  mpc : MainPC
  pid1 : Nat
  pid2 : Nat
  pipes : Nat
  forks : Nat
  closedPipes : Bool
  kills : List Nat
  ppc : ProdPC
  cpc : ConsPC
  prodChild : Option (Nat × Bool)
  consChild : Option (Nat × Bool)
  lpc : ListenPC
  shutdown : Bool
  signals : Nat
  exited : Option Nat
deriving DecidableEq, Repr

/-- Initial state: main at the top of the loop, no generation started,
listener listening, shutdown flag false (src/main.go:28). -/
def initSt (p : Policy) : St :=
  { policy := p, mpc := .top, pid1 := 0, pid2 := 0, pipes := 0, forks := 0,
    closedPipes := false, kills := [], ppc := .dead, cpc := .dead,
    prodChild := none, consChild := none, lpc := .listening,
    shutdown := false, signals := 0, exited := none }

/-- Effect on the main goroutine of receiving value v from the comms
channel, depending on where main is blocked: the first receive stores
pid1 (src/main.go:216), the second stores pid2 (line 219), the third
discards the value (line 228).  none when main is not at a receive. -/
def recvStep (s : St) (v : Nat) : Option St :=
  match s.mpc with
  | .recv1 => some { s with pid1 := v, mpc := .recv2 }
  | .recv2 => some { s with pid2 := v, mpc := .closeFds }
  | .recvDone => some { s with mpc := .kill1 }
  | _ => none

/-- One interleaved step of the supervising process.  Every constructor
requires the process not to have exited; exited states are terminal. -/
inductive Step : St → Lab → St → Prop
  | top_go (s : St) :
      s.exited = none → s.mpc = .top → s.shutdown = false →
      Step s .sup { s with mpc := .pipe }
  | top_break (s : St) :
      s.exited = none → s.mpc = .top → s.shutdown = true →
      Step s .sup { s with exited := some 0 }
  | pipe_ok (s : St) :
      s.exited = none → s.mpc = .pipe →
      Step s .sup { s with mpc := .spawnProd, pipes := s.pipes + 1,
                           closedPipes := false, kills := [],
                           ppc := .dead, cpc := .dead,
                           prodChild := none, consChild := none,
                           pid1 := 0, pid2 := 0 }
  | pipe_fail (s : St) :
      s.exited = none → s.mpc = .pipe →
      Step s .sup { s with exited := some 1 }
  | spawn_prod (s : St) :
      s.exited = none → s.mpc = .spawnProd →
      Step s .sup { s with mpc := .recv1, ppc := .fork }
  | close_fds (s : St) :
      s.exited = none → s.mpc = .closeFds →
      Step s .sup { s with mpc := .recvDone, closedPipes := true }
  | kill_one (s : St) :
      s.exited = none → s.mpc = .kill1 →
      Step s .sup { s with mpc := .kill2, kills := s.pid1 :: s.kills }
  | kill_two (s : St) :
      s.exited = none → s.mpc = .kill2 →
      Step s .sup { s with mpc := .policyCheck, kills := s.pid2 :: s.kills }
  | policy_restart (s : St) :
      s.exited = none → s.mpc = .policyCheck → s.policy = .restart →
      Step s .sup { s with mpc := .top }
  | policy_stop (s : St) :
      s.exited = none → s.mpc = .policyCheck → s.policy ≠ .restart →
      Step s .sup { s with exited := some 1 }
  | pfork_ok (s : St) (p : Nat) :
      s.exited = none → s.ppc = .fork → 0 < p →
      Step s .prodW { s with ppc := .send, prodChild := some (p, true),
                             forks := s.forks + 1 }
  | pfork_fail (s : St) :
      s.exited = none → s.ppc = .fork →
      Step s .prodW { s with exited := some 1 }
  | pspawn_cons (s : St) :
      s.exited = none → s.ppc = .spawnCons →
      Step s .prodW { s with ppc := .wait, cpc := .fork }
  | pwait_ret (s : St) (p : Nat) :
      s.exited = none → s.ppc = .wait → s.prodChild = some (p, false) →
      Step s .prodW { s with ppc := .sendDone }
  | cfork_ok (s : St) (p : Nat) :
      s.exited = none → s.cpc = .fork → 0 < p →
      Step s .consW { s with cpc := .send, consChild := some (p, true),
                             forks := s.forks + 1 }
  | cfork_fail (s : St) :
      s.exited = none → s.cpc = .fork →
      Step s .consW { s with exited := some 1 }
  | cwait_ret (s : St) (p : Nat) :
      s.exited = none → s.cpc = .wait → s.consChild = some (p, false) →
      Step s .consW { s with cpc := .sendDone }
  | send_ppid (s t : St) (p : Nat) (a : Bool) :
      s.exited = none → s.ppc = .send → s.prodChild = some (p, a) →
      recvStep s p = some t →
      Step s .comm { t with ppc := .spawnCons }
  | send_pdone (s t : St) :
      s.exited = none → s.ppc = .sendDone → recvStep s 0 = some t →
      Step s .comm { t with ppc := .dead }
  | send_cpid (s t : St) (p : Nat) (a : Bool) :
      s.exited = none → s.cpc = .send → s.consChild = some (p, a) →
      recvStep s p = some t →
      Step s .comm { t with cpc := .wait }
  | send_cdone (s t : St) :
      s.exited = none → s.cpc = .sendDone → recvStep s 0 = some t →
      Step s .comm { t with cpc := .dead }
  | prod_exits (s : St) (p : Nat) :
      s.exited = none → s.prodChild = some (p, true) →
      Step s .child { s with prodChild := some (p, false) }
  | cons_exits (s : St) (p : Nat) :
      s.exited = none → s.consChild = some (p, true) →
      Step s .child { s with consChild := some (p, false) }
  | sig_handle (s : St) :
      s.exited = none → s.lpc = .listening →
      Step s .sig { s with shutdown := true, lpc := .finished,
                           signals := s.signals + 1 }
  | sig_late (s : St) :
      s.exited = none → s.lpc = .finished →
      Step s .sig s

/-- Reflexive-transitive closure of the step relation. -/
inductive Reach : St → St → Prop
  | refl (s : St) : Reach s s
  | tail (s t u : St) (l : Lab) : Reach s t → Step t l u → Reach s u

/-! ## Concrete executions

A racy schedule of one generation under the Restart policy: the
producer watcher forks child 5 and sends its pid; the producer child
exits at once; the producer watcher's Wait4 returns and its done
sentinel 0 is consumed by main's second receive before the consumer
watcher (already spawned, not yet forked) performs its own send.  Main
then closes its pipe copies with pid2 = 0 and the consumer not forked. -/

/-- The state reached by the racy schedule just after main has closed
its pipe descriptor copies: the sentinel 0 sits in pid2 and the
consumer child does not exist yet. -/
def raceSt : St :=
  { policy := .restart, mpc := .recvDone, pid1 := 5, pid2 := 0, pipes := 1,
    forks := 1, closedPipes := true, kills := [], ppc := .dead, cpc := .fork,
    prodChild := some (5, false), consChild := none, lpc := .listening,
    shutdown := false, signals := 0, exited := none }

theorem reach_raceSt : Reach (initSt .restart) raceSt := by
  have h0 := Reach.refl (initSt Policy.restart)
  have h1 := Reach.tail _ _ _ _ h0 (Step.top_go _ rfl rfl rfl)
  have h2 := Reach.tail _ _ _ _ h1 (Step.pipe_ok _ rfl rfl)
  have h3 := Reach.tail _ _ _ _ h2 (Step.spawn_prod _ rfl rfl)
  have h4 := Reach.tail _ _ _ _ h3 (Step.pfork_ok _ 5 rfl rfl (by decide))
  have h5 := Reach.tail _ _ _ _ h4 (Step.send_ppid _ _ 5 true rfl rfl rfl rfl)
  have h6 := Reach.tail _ _ _ _ h5 (Step.pspawn_cons _ rfl rfl)
  have h7 := Reach.tail _ _ _ _ h6 (Step.prod_exits _ 5 rfl rfl)
  have h8 := Reach.tail _ _ _ _ h7 (Step.pwait_ret _ 5 rfl rfl rfl)
  have h9 := Reach.tail _ _ _ _ h8 (Step.send_pdone _ _ rfl rfl rfl)
  have h10 := Reach.tail _ _ _ _ h9 (Step.close_fds _ rfl rfl)
  exact h10

/-- Continuation of the racy schedule: the consumer watcher forks child
7 and its pid send is consumed by main's exit-notification receive,
after which main kills pid1 = 5 and pid2 = 0 and reaches the policy
check with consumer child 7 still running and never signalled. -/
def orphanSt : St :=
  { policy := .restart, mpc := .policyCheck, pid1 := 5, pid2 := 0, pipes := 1,
    forks := 2, closedPipes := true, kills := [0, 5], ppc := .dead,
    cpc := .wait, prodChild := some (5, false), consChild := some (7, true),
    lpc := .listening, shutdown := false, signals := 0, exited := none }

theorem reach_orphanSt : Reach (initSt .restart) orphanSt := by
  have h10 := reach_raceSt
  have h11 := Reach.tail _ _ _ _ h10 (Step.cfork_ok _ 7 rfl rfl (by decide))
  have h12 := Reach.tail _ _ _ _ h11 (Step.send_cpid _ _ 7 true rfl rfl rfl rfl)
  have h13 := Reach.tail _ _ _ _ h12 (Step.kill_one _ rfl rfl)
  have h14 := Reach.tail _ _ _ _ h13 (Step.kill_two _ rfl rfl)
  exact h14

/-- A full normal generation under the Restart policy during which a
termination signal arrives: after the generation's teardown the loop
returns to the top, observes the flag and breaks, so main returns and
the process exits with status 0. -/
def exitZeroSt : St :=
  { policy := .restart, mpc := .top, pid1 := 5, pid2 := 7, pipes := 1,
    forks := 2, closedPipes := true, kills := [7, 5], ppc := .dead,
    cpc := .wait, prodChild := some (5, false), consChild := some (7, true),
    lpc := .finished, shutdown := true, signals := 1, exited := some 0 }

theorem reach_exitZeroSt : Reach (initSt .restart) exitZeroSt := by
  have h0 := Reach.refl (initSt Policy.restart)
  have h1 := Reach.tail _ _ _ _ h0 (Step.top_go _ rfl rfl rfl)
  have h2 := Reach.tail _ _ _ _ h1 (Step.pipe_ok _ rfl rfl)
  have h3 := Reach.tail _ _ _ _ h2 (Step.spawn_prod _ rfl rfl)
  have h4 := Reach.tail _ _ _ _ h3 (Step.pfork_ok _ 5 rfl rfl (by decide))
  have h5 := Reach.tail _ _ _ _ h4 (Step.send_ppid _ _ 5 true rfl rfl rfl rfl)
  have h6 := Reach.tail _ _ _ _ h5 (Step.pspawn_cons _ rfl rfl)
  have h7 := Reach.tail _ _ _ _ h6 (Step.cfork_ok _ 7 rfl rfl (by decide))
  have h8 := Reach.tail _ _ _ _ h7 (Step.send_cpid _ _ 7 true rfl rfl rfl rfl)
  have h9 := Reach.tail _ _ _ _ h8 (Step.close_fds _ rfl rfl)
  have h10 := Reach.tail _ _ _ _ h9 (Step.sig_handle _ rfl rfl)
  have h11 := Reach.tail _ _ _ _ h10 (Step.prod_exits _ 5 rfl rfl)
  have h12 := Reach.tail _ _ _ _ h11 (Step.pwait_ret _ 5 rfl rfl rfl)
  have h13 := Reach.tail _ _ _ _ h12 (Step.send_pdone _ _ rfl rfl rfl)
  have h14 := Reach.tail _ _ _ _ h13 (Step.kill_one _ rfl rfl)
  have h15 := Reach.tail _ _ _ _ h14 (Step.kill_two _ rfl rfl)
  have h16 := Reach.tail _ _ _ _ h15 (Step.policy_restart _ rfl rfl rfl)
  have h17 := Reach.tail _ _ _ _ h16 (Step.top_break _ rfl rfl rfl)
  exact h17

/-! ## Invariants -/

theorem recvStep_cases {s t : St} {v : Nat} (h : recvStep s v = some t) :
    (s.mpc = .recv1 ∧ t = { s with pid1 := v, mpc := .recv2 }) ∨
    (s.mpc = .recv2 ∧ t = { s with pid2 := v, mpc := .closeFds }) ∨
    (s.mpc = .recvDone ∧ t = { s with mpc := .kill1 }) := by
  unfold recvStep at h
  cases hm : s.mpc <;> rw [hm] at h <;> simp_all

/-- Inductive invariant of every reachable state: exit codes are 0 only
with the shutdown flag set, child pids are positive, the consumer side
is untouched until main has completed its first receive, the producer
child record exists from the moment the producer watcher has forked,
and the listener handles at most one signal, which is the only way the
shutdown flag gets set. -/
def InvAll (s : St) : Prop :=
  (∀ c, s.exited = some c → (c = 0 ∧ s.shutdown = true) ∨ c = 1) ∧
  (∀ p a, s.prodChild = some (p, a) → 0 < p) ∧
  (∀ p a, s.consChild = some (p, a) → 0 < p) ∧
  (s.mpc = .spawnProd → s.ppc = .dead ∧ s.cpc = .dead ∧ s.consChild = none) ∧
  (s.mpc = .recv1 → (s.ppc = .fork ∨ s.ppc = .send) ∧ s.cpc = .dead ∧
    s.consChild = none) ∧
  (s.cpc ≠ .dead → s.prodChild.isSome = true) ∧
  (s.ppc ≠ .dead → s.ppc ≠ .fork → s.prodChild.isSome = true) ∧
  (s.lpc = .listening → s.shutdown = false ∧ s.signals = 0) ∧
  (s.lpc = .finished → s.signals = 1)

theorem initSt_invAll (p : Policy) : InvAll (initSt p) := by
  unfold InvAll initSt
  simp

set_option maxHeartbeats 1600000 in
theorem step_invAll {s t : St} {l : Lab} (h : Step s l t) (ih : InvAll s) :
    InvAll t := by
  obtain ⟨i1, i2, i3, i4, i5, i6, i7, i8, i9⟩ := ih
  cases h with
  | send_ppid t p a he h1 h2 h3 =>
      rcases recvStep_cases h3 with ⟨hm, ht⟩ | ⟨hm, ht⟩ | ⟨hm, ht⟩ <;>
        subst ht <;>
        refine ⟨?_, ?_, ?_, ?_, ?_, ?_, ?_, ?_, ?_⟩ <;> simp_all
  | send_pdone t he h1 h2 =>
      rcases recvStep_cases h2 with ⟨hm, ht⟩ | ⟨hm, ht⟩ | ⟨hm, ht⟩ <;>
        subst ht <;>
        refine ⟨?_, ?_, ?_, ?_, ?_, ?_, ?_, ?_, ?_⟩ <;> simp_all
  | send_cpid t p a he h1 h2 h3 =>
      rcases recvStep_cases h3 with ⟨hm, ht⟩ | ⟨hm, ht⟩ | ⟨hm, ht⟩ <;>
        subst ht <;>
        refine ⟨?_, ?_, ?_, ?_, ?_, ?_, ?_, ?_, ?_⟩ <;> simp_all
  | send_cdone t he h1 h2 =>
      rcases recvStep_cases h2 with ⟨hm, ht⟩ | ⟨hm, ht⟩ | ⟨hm, ht⟩ <;>
        subst ht <;>
        refine ⟨?_, ?_, ?_, ?_, ?_, ?_, ?_, ?_, ?_⟩ <;> simp_all
  | _ =>
      refine ⟨?_, ?_, ?_, ?_, ?_, ?_, ?_, ?_, ?_⟩ <;> simp_all

theorem reach_invAll {p : Policy} {s : St} (h : Reach (initSt p) s) :
    InvAll s := by
  induction h with
  | refl => exact initSt_invAll p
  | tail t u l hr hs ih => exact step_invAll hs ih

/-- Number of children recorded in a child slot. -/
def chCount : Option (Nat × Bool) → Nat
  | none => 0
  | some _ => 1

/-- Inductive invariant of executions under the NoRestart policy: the
loop top is visited only before the single generation, at most one pipe
is ever created and the fork counter matches the recorded children, so
at most two forks happen. -/
def InvNR (s : St) : Prop :=
  s.policy = .noRestart ∧
  s.pipes ≤ 1 ∧
  s.forks = chCount s.prodChild + chCount s.consChild ∧
  (s.mpc = .top → s.pipes = 0 ∧ s.ppc = .dead ∧ s.cpc = .dead ∧
    s.prodChild = none ∧ s.consChild = none) ∧
  (s.mpc = .pipe → s.pipes = 0 ∧ s.ppc = .dead ∧ s.cpc = .dead ∧
    s.prodChild = none ∧ s.consChild = none) ∧
  (s.mpc = .spawnProd → s.ppc = .dead ∧ s.cpc = .dead ∧
    s.prodChild = none ∧ s.consChild = none) ∧
  (s.ppc = .fork → s.prodChild = none) ∧
  (s.cpc = .fork → s.consChild = none) ∧
  ((s.ppc = .fork ∨ s.ppc = .send ∨ s.ppc = .spawnCons) →
    s.cpc = .dead ∧ s.consChild = none)

theorem initSt_invNR : InvNR (initSt .noRestart) := by
  unfold InvNR initSt chCount
  simp

set_option maxHeartbeats 1600000 in
theorem step_invNR {s t : St} {l : Lab} (h : Step s l t) (ih : InvNR s) :
    InvNR t := by
  obtain ⟨i1, i2, i3, i4, i5, i6, i7, i8, i9⟩ := ih
  cases h with
  | send_ppid t p a he h1 h2 h3 =>
      rcases recvStep_cases h3 with ⟨hm, ht⟩ | ⟨hm, ht⟩ | ⟨hm, ht⟩ <;>
        subst ht <;>
        refine ⟨?_, ?_, ?_, ?_, ?_, ?_, ?_, ?_, ?_⟩ <;> simp_all [chCount]
  | send_pdone t he h1 h2 =>
      rcases recvStep_cases h2 with ⟨hm, ht⟩ | ⟨hm, ht⟩ | ⟨hm, ht⟩ <;>
        subst ht <;>
        refine ⟨?_, ?_, ?_, ?_, ?_, ?_, ?_, ?_, ?_⟩ <;> simp_all [chCount]
  | send_cpid t p a he h1 h2 h3 =>
      rcases recvStep_cases h3 with ⟨hm, ht⟩ | ⟨hm, ht⟩ | ⟨hm, ht⟩ <;>
        subst ht <;>
        refine ⟨?_, ?_, ?_, ?_, ?_, ?_, ?_, ?_, ?_⟩ <;> simp_all [chCount]
  | send_cdone t he h1 h2 =>
      rcases recvStep_cases h2 with ⟨hm, ht⟩ | ⟨hm, ht⟩ | ⟨hm, ht⟩ <;>
        subst ht <;>
        refine ⟨?_, ?_, ?_, ?_, ?_, ?_, ?_, ?_, ?_⟩ <;> simp_all [chCount]
  | policy_restart he h1 h2 =>
      exact absurd h2 (by simp [i1])
  | _ =>
      refine ⟨?_, ?_, ?_, ?_, ?_, ?_, ?_, ?_, ?_⟩ <;> simp_all [chCount]

theorem reach_invNR {s : St} (h : Reach (initSt .noRestart) s) : InvNR s := by
  induction h with
  | refl => exact initSt_invNR
  | tail t u l hr hs ih => exact step_invNR hs ih

/-- The shutdown flag is write-once: no step turns it off, and the only
step that changes it is the signal handler's, which sets it. -/
theorem recvStep_frame {s t : St} {v : Nat} (h : recvStep s v = some t) :
    t.shutdown = s.shutdown ∧ t.pipes = s.pipes ∧ t.forks = s.forks ∧
    t.ppc = s.ppc ∧ t.cpc = s.cpc ∧ t.lpc = s.lpc ∧ t.signals = s.signals ∧
    t.exited = s.exited ∧ t.prodChild = s.prodChild ∧
    t.consChild = s.consChild ∧ t.policy = s.policy := by
  rcases recvStep_cases h with ⟨hm, ht⟩ | ⟨hm, ht⟩ | ⟨hm, ht⟩ <;> subst ht <;>
    simp

theorem step_shutdown_mono {s t : St} {l : Lab} (h : Step s l t) :
    (s.shutdown = true → t.shutdown = true) ∧
    (t.shutdown ≠ s.shutdown → l = .sig ∧ t.shutdown = true) := by
  cases h with
  | send_ppid t p a he h1 h2 h3 => have := recvStep_frame h3; simp_all
  | send_pdone t he h1 h2 => have := recvStep_frame h2; simp_all
  | send_cpid t p a he h1 h2 h3 => have := recvStep_frame h3; simp_all
  | send_cdone t he h1 h2 => have := recvStep_frame h2; simp_all
  | _ => simp_all

/-- Once the supervisor stands at the loop top with the shutdown flag
set (or has exited), every later state keeps the flag and creates no
further pipe: the only main step still possible is the break, which
exits with status 0. -/
def ShutTop (n : Nat) (s : St) : Prop :=
  s.shutdown = true ∧ (s.mpc = .top ∨ s.exited ≠ none) ∧ s.pipes = n

theorem step_shutTop {n : Nat} {s t : St} {l : Lab} (h : Step s l t)
    (ih : ShutTop n s) : ShutTop n t := by
  obtain ⟨i1, i2, i3⟩ := ih
  rcases i2 with i2 | i2 <;>
    cases h with
    | send_ppid t p a he h1 h2 h3 =>
        have := recvStep_frame h3
        rcases recvStep_cases h3 with ⟨hm, ht⟩ | ⟨hm, ht⟩ | ⟨hm, ht⟩ <;>
          simp_all [ShutTop]
    | send_pdone t he h1 h2 =>
        have := recvStep_frame h2
        rcases recvStep_cases h2 with ⟨hm, ht⟩ | ⟨hm, ht⟩ | ⟨hm, ht⟩ <;>
          simp_all [ShutTop]
    | send_cpid t p a he h1 h2 h3 =>
        have := recvStep_frame h3
        rcases recvStep_cases h3 with ⟨hm, ht⟩ | ⟨hm, ht⟩ | ⟨hm, ht⟩ <;>
          simp_all [ShutTop]
    | send_cdone t he h1 h2 =>
        have := recvStep_frame h2
        rcases recvStep_cases h2 with ⟨hm, ht⟩ | ⟨hm, ht⟩ | ⟨hm, ht⟩ <;>
          simp_all [ShutTop]
    | _ => simp_all [ShutTop]

theorem reach_shutTop {n : Nat} {s t : St} (h : Reach s t)
    (hs : ShutTop n s) : ShutTop n t := by
  induction h with
  | refl => exact hs
  | tail t u l hr hstep ih => exact step_shutTop hstep ih

theorem recvStep_flag {s t : St} {v : Nat} {b : Bool}
    (h : recvStep s v = some t) :
    recvStep { s with shutdown := b } v = some { t with shutdown := b } := by
  rcases recvStep_cases h with ⟨hm, ht⟩ | ⟨hm, ht⟩ | ⟨hm, ht⟩ <;> subst ht <;>
    simp [recvStep, hm]

/-- The shutdown flag is read by the supervisor only at the top of the
loop: away from the top, every non-signal step is insensitive to the
flag's value. -/
theorem step_flag_blind {s t : St} {l : Lab} (b : Bool) (h : Step s l t)
    (hm : s.mpc ≠ .top) (hl : l ≠ .sig) :
    Step { s with shutdown := b } l { t with shutdown := b } := by
  cases h with
  | top_go he h1 h2 => exact absurd h1 hm
  | top_break he h1 h2 => exact absurd h1 hm
  | pipe_ok he h1 => exact Step.pipe_ok _ he h1
  | pipe_fail he h1 => exact Step.pipe_fail _ he h1
  | spawn_prod he h1 => exact Step.spawn_prod _ he h1
  | close_fds he h1 => exact Step.close_fds _ he h1
  | kill_one he h1 => exact Step.kill_one _ he h1
  | kill_two he h1 => exact Step.kill_two _ he h1
  | policy_restart he h1 h2 => exact Step.policy_restart _ he h1 h2
  | policy_stop he h1 h2 => exact Step.policy_stop _ he h1 h2
  | pfork_ok p he h1 h2 => exact Step.pfork_ok _ p he h1 h2
  | pfork_fail he h1 => exact Step.pfork_fail _ he h1
  | pspawn_cons he h1 => exact Step.pspawn_cons _ he h1
  | pwait_ret p he h1 h2 => exact Step.pwait_ret _ p he h1 h2
  | cfork_ok p he h1 h2 => exact Step.cfork_ok _ p he h1 h2
  | cfork_fail he h1 => exact Step.cfork_fail _ he h1
  | cwait_ret p he h1 h2 => exact Step.cwait_ret _ p he h1 h2
  | send_ppid t p a he h1 h2 h3 =>
      exact Step.send_ppid { s with shutdown := b } { t with shutdown := b }
        p a he h1 h2 (recvStep_flag h3)
  | send_pdone t he h1 h2 =>
      exact Step.send_pdone { s with shutdown := b } { t with shutdown := b }
        he h1 (recvStep_flag h2)
  | send_cpid t p a he h1 h2 h3 =>
      exact Step.send_cpid { s with shutdown := b } { t with shutdown := b }
        p a he h1 h2 (recvStep_flag h3)
  | send_cdone t he h1 h2 =>
      exact Step.send_cdone { s with shutdown := b } { t with shutdown := b }
        he h1 (recvStep_flag h2)
  | prod_exits p he h1 => exact Step.prod_exits _ p he h1
  | cons_exits p he h1 => exact Step.cons_exits _ p he h1
  | sig_handle he h1 => exact absurd rfl hl
  | sig_late he h1 => exact absurd rfl hl

/-! ## Claims -/

/-- Claim C1: the spec asserts the Supervisor closes its pipe copies
only after receiving both children's pids, never consuming a done
sentinel among the first two messages.  The code violates this: in the
exhibited schedule the producer child exits immediately, the producer
watcher's done sentinel 0 is consumed as the second message, and the
Supervisor closes both pipe descriptors while the consumer has not even
forked (pid2 holds the sentinel 0, consChild is still none).  This
contradicts the code's own comment at src/main.go:222-223. -/
theorem supervisor_closes_on_done_sentinel :
    Reach (initSt .restart) raceSt ∧ raceSt.closedPipes = true ∧
    raceSt.pid2 = 0 ∧ raceSt.consChild = none ∧ raceSt.cpc = ConsPC.fork :=
  ⟨reach_raceSt, rfl, rfl, rfl, rfl⟩

/-- Claim C2, counterexample: terminating with exit code 0 is reachable
from the restart loop.  A full generation runs under the Restart
policy, a termination signal arrives mid-generation, and at the next
generation boundary the loop breaks, main returns, and the program
exits with status 0, not 1. -/
theorem exit_zero_reachable :
    Reach (initSt .restart) exitZeroSt ∧ exitZeroSt.exited = some 0 ∧
    exitZeroSt.pipes = 1 ∧ exitZeroSt.shutdown = true :=
  ⟨reach_exitZeroSt, rfl, rfl, rfl⟩

/-- Claim C2, amended: the restart loop exits either through the
shutdown break at the top of the loop, after which main returns and the
program terminates with exit code 0, or through os.Exit(1) (the
NoRestart policy branch, or an OS-call failure); every exit code is 0
or 1, code 0 occurs only with the shutdown flag set, and the NoRestart
policy branch always exits with code 1. -/
theorem loop_exit_codes {p : Policy} {s : St} (h : Reach (initSt p) s) :
    (∀ c, s.exited = some c → c = 0 ∨ c = 1) ∧
    (∀ c, s.exited = some c → c = 0 → s.shutdown = true) ∧
    (∀ t, Step s .sup t → s.mpc = .policyCheck → s.policy ≠ .restart →
      t.exited = some 1) := by
  have hi := reach_invAll h
  obtain ⟨i1, i2, i3, i4, i5, i6, i7, i8, i9⟩ := hi
  refine ⟨?_, ?_, ?_⟩
  · intro c hc
    rcases i1 c hc with ⟨h0, _⟩ | h1
    · exact Or.inl h0
    · exact Or.inr h1
  · intro c hc h0
    rcases i1 c hc with ⟨_, hs⟩ | h1
    · exact hs
    · simp [h1] at h0
  · intro t hstep hm hp
    cases hstep <;> simp_all

theorem loop_exit_codes_witness : exitZeroSt.shutdown = true :=
  (loop_exit_codes reach_exitZeroSt).2.1 0 rfl rfl

/-- Claim C3, counterexample: a failed dup2 neither makes the launcher
exit with status 1 nor stops it from reaching exec: with every call
succeeding except dup2, the producer child still execs. -/
theorem launch_ignores_dup2_failure :
    (launchChild .producer 3 4 "/usr/bin/producer" []
        { closeUnusedErr := false, fcntlGetErr := false, fcntlSetErr := false,
          dup2Err := true, closeBoundErr := false, execErr := false }).2
      = LResult.execed ∧
    LAct.execve "/usr/bin/producer" ["producer"] [] ∈
      (launchChild .producer 3 4 "/usr/bin/producer" []
        { closeUnusedErr := false, fcntlGetErr := false, fcntlSetErr := false,
          dup2Err := true, closeBoundErr := false, execErr := false }).1 := by
  constructor
  · rfl
  · simp [launchChild, goBase, stdoutFd]

/-- Claim C3, amended: the launcher discards the error results of every
descriptor operation (close, fcntl, dup2) and proceeds through all
steps to the exec attempt regardless of their outcomes; only a failed
exec is reported and makes the child exit with status 1. -/
theorem launch_descriptor_errors_ignored (role : Role) (rf wf : Nat)
    (path : String) (env : List String) (r r' : SysErrs) :
    (launchChild role rf wf path env r).1 =
      (launchChild role rf wf path env r').1 ∧
    LAct.execve path [goBase path] env ∈ (launchChild role rf wf path env r).1 ∧
    ((launchChild role rf wf path env r).2 = LResult.exitedWith 1 ↔
      r.execErr = true) := by
  cases role <;> cases hr : r.execErr <;> cases hr' : r'.execErr <;>
    simp [launchChild, hr, hr']

/-- Claim C4: the spec asserts that upon the first done sentinel the
Supervisor sends SIGTERM to both tracked children, leaving no live
untracked orphan.  The code violates this under the racy schedule of
claim C1: the done sentinel was consumed as pid2, so after the
generation's two kill calls the arguments passed to kill are the
producer pid 5 and the sentinel 0 (which POSIX kill addresses to the
whole process group, the supervisor included); the consumer child pid 7
is alive and its pid was never passed to kill. -/
theorem teardown_misses_consumer_pid :
    Reach (initSt .restart) orphanSt ∧ orphanSt.mpc = MainPC.policyCheck ∧
    orphanSt.kills = [0, 5] ∧ orphanSt.consChild = some (7, true) ∧
    7 ∉ orphanSt.kills :=
  ⟨reach_orphanSt, rfl, rfl, rfl, by decide⟩

/-- Claim C5: under the NoRestart policy at most one pipe is ever
created and at most two forks are performed, and from the policy check
the supervisor's step terminates the program with exit status 1 without
creating another pipe: exactly one generation runs. -/
theorem norestart_single_generation {s : St}
    (h : Reach (initSt .noRestart) s) :
    s.pipes ≤ 1 ∧ s.forks ≤ 2 ∧
    (∀ t, Step s .sup t → s.mpc = .policyCheck →
      t.exited = some 1 ∧ t.pipes = s.pipes) := by
  have hi := reach_invNR h
  obtain ⟨i1, i2, i3, i4, i5, i6, i7, i8, i9⟩ := hi
  refine ⟨i2, ?_, ?_⟩
  · have hp : chCount s.prodChild ≤ 1 := by cases s.prodChild <;> simp [chCount]
    have hc : chCount s.consChild ≤ 1 := by cases s.consChild <;> simp [chCount]
    omega
  · intro t hstep hm
    cases hstep <;> simp_all

theorem norestart_single_generation_witness :
    (initSt .noRestart).pipes ≤ 1 ∧ (initSt .noRestart).forks ≤ 2 ∧
    (∀ t, Step (initSt .noRestart) .sup t →
      (initSt .noRestart).mpc = .policyCheck →
      t.exited = some 1 ∧ t.pipes = (initSt .noRestart).pipes) :=
  norestart_single_generation (Reach.refl _)

/-- Claim C6: a signal step only records the shutdown request: it kills
no child, moves no task and closes nothing (first conjunct); once the
supervisor stands at a generation boundary with the flag set, no later
state ever has a new pipe, so no further generation starts (second
conjunct); and away from the loop top every non-signal step is
insensitive to the flag, which is therefore read only at the boundary
(third conjunct). -/
theorem deferred_shutdown :
    (∀ s t, Step s .sig t → t.prodChild = s.prodChild ∧
      t.consChild = s.consChild ∧ t.mpc = s.mpc ∧ t.ppc = s.ppc ∧
      t.cpc = s.cpc ∧ t.pipes = s.pipes ∧ t.kills = s.kills ∧
      t.exited = s.exited) ∧
    (∀ s t, s.shutdown = true → s.mpc = .top → Reach s t →
      t.pipes = s.pipes) ∧
    (∀ s t l b, Step s l t → s.mpc ≠ .top → l ≠ .sig →
      Step { s with shutdown := b } l { t with shutdown := b }) := by
  refine ⟨?_, ?_, ?_⟩
  · intro s t h
    cases h <;> simp_all
  · intro s t h1 h2 hr
    exact (reach_shutTop hr ⟨h1, Or.inl h2, rfl⟩).2.2
  · intro s t l b h hm hl
    exact step_flag_blind b h hm hl

theorem deferred_shutdown_witness :
    ({ initSt .restart with
        shutdown := true, lpc := .finished, signals := 1 } : St).pipes
      = (initSt .restart).pipes :=
  (deferred_shutdown.1 (initSt .restart) _
    (Step.sig_handle (initSt .restart) rfl rfl)).2.2.2.2.2.1

/-- Claim C7: for each role a successful launch performs exactly the
specified steps in the specified order: close the unused pipe end, set
the bound end non-blocking (the fcntl get/set pair), duplicate the
bound end onto the role's standard stream (stdout for the producer,
stdin for the consumer), close the original descriptor, and exec the
target with only its base name as argument zero and the environment
inherited. -/
theorem launch_step_order (rf wf : Nat) (path : String) (env : List String)
    (r : SysErrs) (h : r.execErr = false) :
    (launchChild .producer rf wf path env r).1 =
      specLaunchSeq .producer rf wf path env ∧
    (launchChild .consumer rf wf path env r).1 =
      specLaunchSeq .consumer rf wf path env ∧
    (launchChild .producer rf wf path env r).2 = LResult.execed ∧
    (launchChild .consumer rf wf path env r).2 = LResult.execed ∧
    specLaunchSeq .producer rf wf path env =
      [LAct.closeFd rf, LAct.fcntlGetfl wf, LAct.fcntlSetflNonblock wf,
       LAct.dup2 wf stdoutFd, LAct.closeFd wf,
       LAct.execve path [goBase path] env] ∧
    specLaunchSeq .consumer rf wf path env =
      [LAct.closeFd wf, LAct.fcntlGetfl rf, LAct.fcntlSetflNonblock rf,
       LAct.dup2 rf stdinFd, LAct.closeFd rf,
       LAct.execve path [goBase path] env] := by
  simp [launchChild, specLaunchSeq, h]

theorem launch_step_order_witness :
    (launchChild .producer 3 4 "/bin/prod" ["PATH=/bin"]
        { closeUnusedErr := false, fcntlGetErr := false, fcntlSetErr := false,
          dup2Err := false, closeBoundErr := false, execErr := false }).1 =
      specLaunchSeq .producer 3 4 "/bin/prod" ["PATH=/bin"] :=
  (launch_step_order 3 4 "/bin/prod" ["PATH=/bin"] _ rfl).1

/-- Claim C8: the shutdown flag starts false, no step ever clears it,
and the only step that changes it is a signal step, which sets it; so
once set it is seen set by every later generation-boundary check. -/
theorem shutdown_flag_monotone :
    (∀ p, (initSt p).shutdown = false) ∧
    (∀ s t l, Step s l t → s.shutdown = true → t.shutdown = true) ∧
    (∀ s t l, Step s l t → t.shutdown ≠ s.shutdown →
      l = Lab.sig ∧ t.shutdown = true) :=
  ⟨fun _ => rfl,
   fun _ _ _ h => (step_shutdown_mono h).1,
   fun _ _ _ h => (step_shutdown_mono h).2⟩

theorem shutdown_flag_monotone_witness :
    ({ initSt .restart with shutdown := true, lpc := .finished } : St).shutdown
      = true :=
  shutdown_flag_monotone.2.1 _ _ Lab.sig
    (Step.sig_late { initSt .restart with shutdown := true, lpc := .finished }
      rfl rfl) rfl

/-- Claim C9: the consumer side does not exist until the producer
watcher has forked its child (first conjunct: whenever the consumer
watcher has started, the producer child record exists), and the first
message main receives in a generation is always the producer child's
pid, a positive pid and never a sentinel, while the consumer watcher is
still unstarted (second conjunct). -/
theorem producer_forked_first :
    (∀ p s, Reach (initSt p) s → s.cpc ≠ ConsPC.dead →
      s.prodChild.isSome = true) ∧
    (∀ p s l t, Reach (initSt p) s → Step s l t → s.mpc = .recv1 →
      t.mpc = .recv2 → ∃ a, s.prodChild = some (t.pid1, a) ∧ 0 < t.pid1 ∧
        s.cpc = ConsPC.dead ∧ s.consChild = none) := by
  constructor
  · intro p s hr hc
    exact (reach_invAll hr).2.2.2.2.2.1 hc
  · intro p s l t hr hstep hm1 hm2
    have hi := reach_invAll hr
    obtain ⟨i1, i2, i3, i4, i5, i6, i7, i8, i9⟩ := hi
    cases hstep with
    | send_ppid t' q a he h1 h2 h3 =>
        rcases recvStep_cases h3 with ⟨hm, ht⟩ | ⟨hm, ht⟩ | ⟨hm, ht⟩ <;>
          subst ht <;> simp_all
    | send_pdone t' he h1 h2 =>
        rcases recvStep_cases h2 with ⟨hm, ht⟩ | ⟨hm, ht⟩ | ⟨hm, ht⟩ <;>
          simp_all
    | send_cpid t' q a he h1 h2 h3 =>
        rcases recvStep_cases h3 with ⟨hm, ht⟩ | ⟨hm, ht⟩ | ⟨hm, ht⟩ <;>
          simp_all
    | send_cdone t' he h1 h2 =>
        rcases recvStep_cases h2 with ⟨hm, ht⟩ | ⟨hm, ht⟩ | ⟨hm, ht⟩ <;>
          simp_all
    | _ => simp_all

/-- The state of the racy schedule just before main's first receive
pairs with the producer watcher's pid send. -/
def preRecvSt : St :=
  { policy := .restart, mpc := .recv1, pid1 := 0, pid2 := 0, pipes := 1,
    forks := 1, closedPipes := false, kills := [], ppc := .send,
    cpc := .dead, prodChild := some (5, true), consChild := none,
    lpc := .listening, shutdown := false, signals := 0, exited := none }

/-- The state just after that rendezvous: pid1 now holds 5. -/
def postRecvSt : St :=
  { policy := .restart, mpc := .recv2, pid1 := 5, pid2 := 0, pipes := 1,
    forks := 1, closedPipes := false, kills := [], ppc := .spawnCons,
    cpc := .dead, prodChild := some (5, true), consChild := none,
    lpc := .listening, shutdown := false, signals := 0, exited := none }

theorem reach_preRecvSt : Reach (initSt .restart) preRecvSt := by
  have h0 := Reach.refl (initSt Policy.restart)
  have h1 := Reach.tail _ _ _ _ h0 (Step.top_go _ rfl rfl rfl)
  have h2 := Reach.tail _ _ _ _ h1 (Step.pipe_ok _ rfl rfl)
  have h3 := Reach.tail _ _ _ _ h2 (Step.spawn_prod _ rfl rfl)
  have h4 := Reach.tail _ _ _ _ h3 (Step.pfork_ok _ 5 rfl rfl (by decide))
  exact h4

theorem producer_forked_first_witness :
    ∃ a, preRecvSt.prodChild = some (postRecvSt.pid1, a) ∧
      0 < postRecvSt.pid1 ∧ preRecvSt.cpc = ConsPC.dead ∧
      preRecvSt.consChild = none :=
  producer_forked_first.2 .restart preRecvSt .comm postRecvSt
    reach_preRecvSt
    (Step.send_ppid preRecvSt { preRecvSt with pid1 := 5, mpc := .recv2 }
      5 true rfl rfl rfl rfl) rfl rfl

/-- Claim C10: the signal listener handles exactly one signal: a signal
step in the finished listener state changes nothing at all, no step
ever revives the listener, and every reachable state has handled (and
logged) at most one signal. -/
theorem single_signal_listener :
    (∀ s t, Step s .sig t → s.lpc = .finished → t = s) ∧
    (∀ s t l, Step s l t → s.lpc = .finished → t.lpc = .finished) ∧
    (∀ p s, Reach (initSt p) s → s.signals ≤ 1) := by
  refine ⟨?_, ?_, ?_⟩
  · intro s t h hl
    cases h <;> simp_all
  · intro s t l h hl
    cases h with
    | send_ppid t' q a he h1 h2 h3 => have := recvStep_frame h3; simp_all
    | send_pdone t' he h1 h2 => have := recvStep_frame h2; simp_all
    | send_cpid t' q a he h1 h2 h3 => have := recvStep_frame h3; simp_all
    | send_cdone t' he h1 h2 => have := recvStep_frame h2; simp_all
    | _ => simp_all
  · intro p s hr
    have hi := reach_invAll hr
    obtain ⟨i1, i2, i3, i4, i5, i6, i7, i8, i9⟩ := hi
    cases hl : s.lpc with
    | listening => simp [(i8 hl).2]
    | finished => simp [i9 hl]

theorem single_signal_listener_witness :
    (initSt Policy.restart).signals ≤ 1 :=
  single_signal_listener.2.2 Policy.restart _ (Reach.refl _)

end Mrun
